import Mathlib

/-!
# Verification of `python-zmanim` (JewishCalendar / ZmanimCalendar)

Shallow embedding of the three source files
`zmanim/hebrew_calendar/constants.py`, `zmanim/hebrew_calendar/jewish_calendar.py`
and `zmanim/zmanim_calendar.py`.

The base classes `JewishDate` and `AstronomicalCalendar` are external
collaborators (not part of the sources): their outputs — the Hebrew date
fields, the leap-year / short-Kislev flags, the molad instant, and the
astronomical primitives (sunrise/sunset and degree-offset variants) —
are modelled as fields of the state records below.  Instants and
durations are modelled as exact rationals (milliseconds), matching the
spec's description of the arithmetic.
-/

namespace Zmanim

/-- The `SIGNIFICANT_DAYS` enumeration from `constants.py`. -/
inductive SignificantDay where
  | erev_rosh_hashana
  | rosh_hashana
  | tzom_gedalyah
  | erev_yom_kippur
  | yom_kippur
  | erev_succos
  | succos
  | chol_hamoed_succos
  | hoshana_rabbah
  | shemini_atzeres
  | simchas_torah
  | chanukah
  | tenth_of_teves
  | tu_beshvat
  | taanis_esther
  | purim
  | shushan_purim
  | purim_katan
  | shushan_purim_katan
  | erev_pesach
  | pesach
  | chol_hamoed_pesach
  | pesach_sheni
  | lag_baomer
  | erev_shavuos
  | shavuos
  | seventeen_of_tammuz
  | tisha_beav
  | tu_beav
  | yom_hashoah
  | yom_hazikaron
  | yom_haatzmaut
  | yom_yerushalayim
  deriving DecidableEq, Repr

open SignificantDay

/-- Milliseconds per minute (`AstronomicalCalendar.MINUTE_MILLIS`); instants
and durations are modelled as exact rationals counted in milliseconds. -/
def MINUTE_MILLIS : ℚ := 60 * 1000

/-- Milliseconds per hour (`AstronomicalCalendar.HOUR_MILLIS`). -/
def HOUR_MILLIS : ℚ := 60 * MINUTE_MILLIS

/-- Milliseconds per second (`timedelta` second unit). -/
def second_millis : ℚ := 1000

/-- Milliseconds per day (`timedelta` day unit). -/
def day_millis : ℚ := 24 * HOUR_MILLIS

/-- State of a `JewishCalendar` instance.  `jewish_month`, `jewish_day`,
`day_of_week` and the two flags `kislev_short` (`is_kislev_short()`) and
`leap_year` (`is_jewish_leap_year()`) are supplied by the external
`JewishDate` base class; `in_israel` and `use_modern_holidays` are the
instance's configuration flags. -/
structure JewishCalendar where
  jewish_month : Nat
  jewish_day : Nat
  day_of_week : Nat
  in_israel : Bool
  use_modern_holidays : Bool
  kislev_short : Bool
  leap_year : Bool
  deriving Repr

namespace JewishCalendar

/-- `_nissan_significant_day` (month 1). -/
def nissan_significant_day (s : JewishCalendar) : Option SignificantDay :=
  let pesach_days : List Nat := if s.in_israel then [15, 21] else [15, 21, 16, 22]
  if s.jewish_day = 14 then some erev_pesach
  else if s.jewish_day ∈ pesach_days then some pesach
  else if 16 ≤ s.jewish_day ∧ s.jewish_day < 21 then some chol_hamoed_pesach
  else if s.use_modern_holidays then
    if (s.jewish_day = 26 ∧ s.day_of_week = 5)
        ∨ (s.jewish_day = 27 ∧ s.day_of_week ≠ 1 ∧ s.day_of_week ≠ 6)
        ∨ (s.jewish_day = 28 ∧ s.day_of_week = 2) then some yom_hashoah
    else none
  else none

/-- `_iyar_significant_day` (month 2). -/
def iyar_significant_day (s : JewishCalendar) : Option SignificantDay :=
  if s.jewish_day = 14 then some pesach_sheni
  else if s.jewish_day = 18 then some lag_baomer
  else if s.use_modern_holidays then
    if ((s.jewish_day = 2 ∨ s.jewish_day = 3) ∧ s.day_of_week = 4)
        ∨ (s.jewish_day = 4 ∧ s.day_of_week = 3)
        ∨ (s.jewish_day = 5 ∧ s.day_of_week = 2) then some yom_hazikaron
    else if ((s.jewish_day = 3 ∨ s.jewish_day = 4) ∧ s.day_of_week = 5)
        ∨ (s.jewish_day = 5 ∧ s.day_of_week = 4)
        ∨ (s.jewish_day = 6 ∧ s.day_of_week = 3) then some yom_haatzmaut
    else if s.jewish_day = 28 then some yom_yerushalayim
    else none
  else none

/-- `_sivan_significant_day` (month 3). -/
def sivan_significant_day (s : JewishCalendar) : Option SignificantDay :=
  let shavuos_days : List Nat := if s.in_israel then [6] else [6, 7]
  if s.jewish_day = 5 then some erev_shavuos
  else if s.jewish_day ∈ shavuos_days then some shavuos
  else none

/-- `_tammuz_significant_day` (month 4). -/
def tammuz_significant_day (s : JewishCalendar) : Option SignificantDay :=
  if (s.jewish_day = 17 ∧ s.day_of_week ≠ 7)
      ∨ (s.jewish_day = 18 ∧ s.day_of_week = 1) then some seventeen_of_tammuz
  else none

/-- `_av_significant_day` (month 5). -/
def av_significant_day (s : JewishCalendar) : Option SignificantDay :=
  if (s.jewish_day = 9 ∧ s.day_of_week ≠ 7)
      ∨ (s.jewish_day = 10 ∧ s.day_of_week = 1) then some tisha_beav
  else if s.jewish_day = 15 then some tu_beav
  else none

/-- `_elul_significant_day` (month 6). -/
def elul_significant_day (s : JewishCalendar) : Option SignificantDay :=
  if s.jewish_day = 29 then some erev_rosh_hashana
  else none

/-- `_tishrei_significant_day` (month 7). -/
def tishrei_significant_day (s : JewishCalendar) : Option SignificantDay :=
  let succos_days : List Nat := if s.in_israel then [15] else [15, 16]
  if s.jewish_day = 1 ∨ s.jewish_day = 2 then some rosh_hashana
  else if (s.jewish_day = 3 ∧ s.day_of_week ≠ 7)
      ∨ (s.jewish_day = 4 ∧ s.day_of_week = 1) then some tzom_gedalyah
  else if s.jewish_day = 9 then some erev_yom_kippur
  else if s.jewish_day = 10 then some yom_kippur
  else if s.jewish_day = 14 then some erev_succos
  else if s.jewish_day ∈ succos_days then some succos
  else if 16 ≤ s.jewish_day ∧ s.jewish_day < 21 then some chol_hamoed_succos
  else if s.jewish_day = 21 then some hoshana_rabbah
  else if s.jewish_day = 22 then some shemini_atzeres
  else if s.jewish_day = 23 ∧ ¬s.in_israel then some simchas_torah
  else none

/-- `_cheshvan_significant_day` (month 8). -/
def cheshvan_significant_day (_s : JewishCalendar) : Option SignificantDay :=
  none

/-- `_kislev_significant_day` (month 9). -/
def kislev_significant_day (s : JewishCalendar) : Option SignificantDay :=
  if 25 ≤ s.jewish_day then some chanukah
  else none

/-- `_teves_significant_day` (month 10). -/
def teves_significant_day (s : JewishCalendar) : Option SignificantDay :=
  let chanukah_days : List Nat := if s.kislev_short then [1, 2, 3] else [1, 2]
  if s.jewish_day ∈ chanukah_days then some chanukah
  else if s.jewish_day = 10 then some tenth_of_teves
  else none

/-- `_shevat_significant_day` (month 11). -/
def shevat_significant_day (s : JewishCalendar) : Option SignificantDay :=
  if s.jewish_day = 15 then some tu_beshvat
  else none

/-- `_purim_significant_day` (shared by Adar in a non-leap year and Adar II). -/
def purim_significant_day (s : JewishCalendar) : Option SignificantDay :=
  if (s.jewish_day = 13 ∧ s.day_of_week ≠ 7)
      ∨ (s.jewish_day = 11 ∧ s.day_of_week = 5) then some taanis_esther
  else if s.jewish_day = 14 then some purim
  else if s.jewish_day = 15 then some shushan_purim
  else none

/-- `_adar_significant_day` (month 12). -/
def adar_significant_day (s : JewishCalendar) : Option SignificantDay :=
  if s.leap_year then
    if s.jewish_day = 14 then some purim_katan
    else if s.jewish_day = 15 then some shushan_purim_katan
    else none
  else purim_significant_day s

/-- `_adar_ii_significant_day` (month 13). -/
def adar_ii_significant_day (s : JewishCalendar) : Option SignificantDay :=
  purim_significant_day s

/-- `significant_day()`: dispatch on the month name (`JEWISH_MONTHS`
numbering: 1 = nissan .. 13 = adar_ii) to the per-month handler, mirroring
the `getattr`-based dispatch of the source. -/
def significant_day (s : JewishCalendar) : Option SignificantDay :=
  if s.jewish_month = 1 then nissan_significant_day s
  else if s.jewish_month = 2 then iyar_significant_day s
  else if s.jewish_month = 3 then sivan_significant_day s
  else if s.jewish_month = 4 then tammuz_significant_day s
  else if s.jewish_month = 5 then av_significant_day s
  else if s.jewish_month = 6 then elul_significant_day s
  else if s.jewish_month = 7 then tishrei_significant_day s
  else if s.jewish_month = 8 then cheshvan_significant_day s
  else if s.jewish_month = 9 then kislev_significant_day s
  else if s.jewish_month = 10 then teves_significant_day s
  else if s.jewish_month = 11 then shevat_significant_day s
  else if s.jewish_month = 12 then adar_significant_day s
  else if s.jewish_month = 13 then adar_ii_significant_day s
  else none

/-- Whether a tag's `.name` starts with `'erev_'` (the five `erev_*`
members of `SIGNIFICANT_DAYS`). -/
def startswith_erev : SignificantDay → Bool
  | erev_rosh_hashana => true
  | erev_yom_kippur => true
  | erev_succos => true
  | erev_pesach => true
  | erev_shavuos => true
  | _ => false

/-- Whether a tag's `.name` starts with `'chol_hamoed_'`. -/
def startswith_chol_hamoed : SignificantDay → Bool
  | chol_hamoed_succos => true
  | chol_hamoed_pesach => true
  | _ => false

/-- `is_taanis()`. -/
def is_taanis (s : JewishCalendar) : Bool :=
  match significant_day s with
  | none => false
  | some sd =>
      sd = seventeen_of_tammuz ∨ sd = tisha_beav ∨ sd = tzom_gedalyah
        ∨ sd = yom_kippur ∨ sd = tenth_of_teves ∨ sd = taanis_esther

/-- `is_yom_tov()`. -/
def is_yom_tov (s : JewishCalendar) : Bool :=
  match significant_day s with
  | none => false
  | some sd => !startswith_erev sd && (!is_taanis s || sd == yom_kippur)

/-- `is_yom_tov_assur_bemelacha()`. -/
def is_yom_tov_assur_bemelacha (s : JewishCalendar) : Bool :=
  match significant_day s with
  | none => false
  | some sd =>
      sd = pesach ∨ sd = shavuos ∨ sd = rosh_hashana ∨ sd = yom_kippur
        ∨ sd = succos ∨ sd = shemini_atzeres ∨ sd = simchas_torah

/-- `is_erev_yom_tov()`. -/
def is_erev_yom_tov (s : JewishCalendar) : Bool :=
  match significant_day s with
  | none => false
  | some sd =>
      startswith_erev sd || sd = hoshana_rabbah
        || (sd = chol_hamoed_pesach && s.jewish_day = 20)

/-- `is_yom_tov_sheni()`. -/
def is_yom_tov_sheni (s : JewishCalendar) : Bool :=
  (s.jewish_month = 7 ∧ s.jewish_day = 2)
    ∨ (¬s.in_israel ∧ (
        (s.jewish_month = 7 ∧ (s.jewish_day = 16 ∨ s.jewish_day = 23))
        ∨ (s.jewish_month = 1 ∧ (s.jewish_day = 16 ∨ s.jewish_day = 22))
        ∨ (s.jewish_month = 3 ∧ s.jewish_day = 7)))

/-- `is_erev_yom_tov_sheni()`. -/
def is_erev_yom_tov_sheni (s : JewishCalendar) : Bool :=
  (s.jewish_month = 7 ∧ s.jewish_day = 1)
    ∨ (¬s.in_israel ∧ (
        (s.jewish_month = 7 ∧ (s.jewish_day = 15 ∨ s.jewish_day = 22))
        ∨ (s.jewish_month = 1 ∧ (s.jewish_day = 15 ∨ s.jewish_day = 21))
        ∨ (s.jewish_month = 3 ∧ s.jewish_day = 6)))

/-- `is_chol_hamoed()`. -/
def is_chol_hamoed (s : JewishCalendar) : Bool :=
  match significant_day s with
  | none => false
  | some sd => startswith_chol_hamoed sd || sd = hoshana_rabbah

/-- `is_taanis_bechorim()`. -/
def is_taanis_bechorim (s : JewishCalendar) : Bool :=
  (s.day_of_week ≠ 7 ∧ s.jewish_day = 14 ∧ s.jewish_month = 1)
    ∨ (s.day_of_week = 5 ∧ s.jewish_day = 12 ∧ s.jewish_month = 1)

/-- `is_assur_bemelacha()` (calendar-level). -/
def is_assur_bemelacha (s : JewishCalendar) : Bool :=
  s.day_of_week = 7 || is_yom_tov_assur_bemelacha s

/-- `is_tomorrow_assur_bemelacha()`. -/
def is_tomorrow_assur_bemelacha (s : JewishCalendar) : Bool :=
  s.day_of_week = 6 || is_erev_yom_tov s || is_erev_yom_tov_sheni s

/-- `is_chanukah()`. -/
def is_chanukah (s : JewishCalendar) : Bool :=
  significant_day s = some chanukah

/-- `day_of_chanukah()`.  The source compares `jewish_month_name()` with
`MONTHS.kislev.name`; Kislev is month 9 in the `JEWISH_MONTHS` numbering. -/
def day_of_chanukah (s : JewishCalendar) : Option Nat :=
  if ¬is_chanukah s then none
  else if s.jewish_month = 9 then some (s.jewish_day - 24)
  else some (s.jewish_day + (if s.kislev_short then 5 else 6))

/-- `day_of_omer()`. -/
def day_of_omer (s : JewishCalendar) : Option Nat :=
  if s.jewish_month = 1 then
    if 15 < s.jewish_day then some (s.jewish_day - 15) else none
  else if s.jewish_month = 2 then some (s.jewish_day + 15)
  else if s.jewish_month = 3 then
    if s.jewish_day < 6 then some (s.jewish_day + 44) else none
  else none

/-- Replace the `in_israel` flag (the `jewish_calendar.in_israel = in_israel`
assignment in `ZmanimCalendar.is_assur_bemelacha`). -/
def set_in_israel (s : JewishCalendar) (b : Bool) : JewishCalendar :=
  ⟨s.jewish_month, s.jewish_day, s.day_of_week, b,
    s.use_modern_holidays, s.kislev_short, s.leap_year⟩

/-- `techilas_zman_kiddush_levana_3_days()`: the molad instant plus
`timedelta(3)` (3 days).  Instants are rationals in milliseconds; the
molad instant computed by `molad_as_datetime()` is passed in, as each
boundary method obtains it from that single pure computation. -/
def techilas_zman_kiddush_levana_3_days (molad_as_datetime : ℚ) : ℚ :=
  molad_as_datetime + 3 * day_millis

/-- `techilas_zman_kiddush_levana_7_days()`: the molad instant plus 7 days. -/
def techilas_zman_kiddush_levana_7_days (molad_as_datetime : ℚ) : ℚ :=
  molad_as_datetime + 7 * day_millis

/-- `sof_zman_kiddush_levana_between_moldos()`: the molad instant plus
`CHALAKIM_PER_MONTH * 10 / 6.0` seconds (converted to microseconds and
handed to `timedelta`); `CHALAKIM_PER_MONTH` is the constant inherited
from `JewishDate`, kept abstract here. -/
def sof_zman_kiddush_levana_between_moldos (chalakim_per_month : ℚ)
    (molad_as_datetime : ℚ) : ℚ :=
  molad_as_datetime + (chalakim_per_month * 10 / 6) * second_millis

/-- `sof_zman_kiddush_levana_15_days()`: the molad instant plus 15 days. -/
def sof_zman_kiddush_levana_15_days (molad_as_datetime : ℚ) : ℚ :=
  molad_as_datetime + 15 * day_millis

end JewishCalendar

/-- Per-call options dict for `tzais`/`alos`: the three recognized keys
`degrees`, `offset`, `zmanis_offset` (absent key ≡ `none`). -/
structure ZmanOpts where
  degrees : Option ℚ
  offset : Option ℚ
  zmanis_offset : Option ℚ

/-- State of a `ZmanimCalendar` instance.  The astronomical primitives
(`sunrise`, `sea_level_sunrise`, `sunset`, `sea_level_sunset`,
`sunrise_offset_by_degrees`, `sunset_offset_by_degrees`) come from the
external `AstronomicalCalendar` base class and are modelled as fields,
`none` meaning the sun event does not occur on that day/location. -/
structure ZmanimCalendar where
  sunrise : Option ℚ
  sea_level_sunrise : Option ℚ
  sunset : Option ℚ
  sea_level_sunset : Option ℚ
  sunrise_offset_by_degrees : ℚ → Option ℚ
  sunset_offset_by_degrees : ℚ → Option ℚ
  use_elevation : Bool
  candle_lighting_offset : ℚ

namespace ZmanimCalendar

/-- `GEOMETRIC_ZENITH` (90°), from `AstronomicalCalendar`. -/
def GEOMETRIC_ZENITH : ℚ := 90

/-- Modelled from the spec: `AstronomicalCalendar.temporal_hour` (not under
`src/`) — the temporal-hour length, "total daytime duration ÷ 12"
(`shaah_zmanis_minutes = (day_end - day_start) / 12`), absent when either
boundary is absent.  Returned in milliseconds. -/
def temporal_hour (day_start day_end : Option ℚ) : Option ℚ :=
  match day_start, day_end with
  | some a, some b => some ((b - a) / 12)
  | _, _ => none

/-- `elevation_adjusted_sunrise()`. -/
def elevation_adjusted_sunrise (s : ZmanimCalendar) : Option ℚ :=
  if s.use_elevation then s.sunrise else s.sea_level_sunrise

/-- `elevation_adjusted_sunset()`. -/
def elevation_adjusted_sunset (s : ZmanimCalendar) : Option ℚ :=
  if s.use_elevation then s.sunset else s.sea_level_sunset

/-- `_extract_degrees_offset(opts)`: each key defaults to `0` when absent. -/
def extract_degrees_offset (opts : ZmanOpts) : ℚ × ℚ × ℚ :=
  (opts.degrees.getD 0, opts.offset.getD 0, opts.zmanis_offset.getD 0)

/-- `_offset_by_minutes(time, minutes)`. -/
def offset_by_minutes (time : Option ℚ) (minutes : ℚ) : Option ℚ :=
  match time with
  | none => none
  | some t => some (t + minutes * MINUTE_MILLIS)

/-- `shaah_zmanis(day_start, day_end)`. -/
def shaah_zmanis (_s : ZmanimCalendar) (day_start day_end : Option ℚ) :
    Option ℚ :=
  temporal_hour day_start day_end

/-- `shaah_zmanis_gra()`. -/
def shaah_zmanis_gra (s : ZmanimCalendar) : Option ℚ :=
  shaah_zmanis s (elevation_adjusted_sunrise s) (elevation_adjusted_sunset s)

/-- `_offset_by_minutes_zmanis(time, minutes)`. -/
def offset_by_minutes_zmanis (s : ZmanimCalendar) (time : Option ℚ)
    (minutes : ℚ) : Option ℚ :=
  match time with
  | none => none
  | some t =>
      match shaah_zmanis_gra s with
      | none => none
      | some h => some (t + minutes * (h / HOUR_MILLIS) * MINUTE_MILLIS)

/-- `tzais(opts)` (default options `{"degrees": 8.5}`). -/
def tzais (s : ZmanimCalendar) (opts : ZmanOpts) : Option ℚ :=
  let e := extract_degrees_offset opts
  let degrees := e.1
  let offset := e.2.1
  let zmanis_offset := e.2.2
  let sunset_for_degrees :=
    if degrees = 0 then elevation_adjusted_sunset s
    else s.sunset_offset_by_degrees (GEOMETRIC_ZENITH + degrees)
  if zmanis_offset ≠ 0 then offset_by_minutes_zmanis s sunset_for_degrees zmanis_offset
  else offset_by_minutes sunset_for_degrees offset

/-- `tzais()` with the default options dict `{"degrees": 8.5}`. -/
def tzais_default (s : ZmanimCalendar) : Option ℚ :=
  tzais s ⟨some (17 / 2), none, none⟩

/-- `tzais_72()`: `tzais({"offset": 72})`. -/
def tzais_72 (s : ZmanimCalendar) : Option ℚ :=
  tzais s ⟨none, some 72, none⟩

/-- `alos(opts)` (default options `{"degrees": 16.1}`). -/
def alos (s : ZmanimCalendar) (opts : ZmanOpts) : Option ℚ :=
  let e := extract_degrees_offset opts
  let degrees := e.1
  let offset := e.2.1
  let zmanis_offset := e.2.2
  let sunrise_for_degrees :=
    if degrees = 0 then elevation_adjusted_sunrise s
    else s.sunrise_offset_by_degrees (GEOMETRIC_ZENITH + degrees)
  if zmanis_offset ≠ 0 then offset_by_minutes_zmanis s sunrise_for_degrees (-zmanis_offset)
  else offset_by_minutes sunrise_for_degrees (-offset)

/-- `alos_72()`: `alos({"offset": 72})`. -/
def alos_72 (s : ZmanimCalendar) : Option ℚ :=
  alos s ⟨none, some 72, none⟩

/-- `candle_lighting()`. -/
def candle_lighting (s : ZmanimCalendar) : Option ℚ :=
  offset_by_minutes s.sea_level_sunset (-s.candle_lighting_offset)

/-- The `tzais` argument of `ZmanimCalendar.is_assur_bemelacha`: `None`,
an options dict, or an explicit instant. -/
inductive TzaisArg where
  | default_
  | opts (o : ZmanOpts)
  | instant (t : ℚ)

/-- The `tzais_time` resolution at the top of
`ZmanimCalendar.is_assur_bemelacha`: default `tzais()` when the argument is
`None`, `tzais(opts)` for a dict, else the explicit instant. -/
def resolved_tzais (s : ZmanimCalendar) : TzaisArg → Option ℚ
  | TzaisArg.default_ => tzais_default s
  | TzaisArg.opts o => tzais s o
  | TzaisArg.instant t => some t

/-- `ZmanimCalendar.is_assur_bemelacha(current_time, tzais, in_israel)`:
`None`-check on the resolved tzais, then on the elevation-adjusted sunset,
then the boolean.  `jc` is the `JewishCalendar(current_time.date())` state
supplied by the external Hebrew-date conversion; the method overwrites its
`in_israel` flag with the parameter before querying it. -/
def is_assur_bemelacha (s : ZmanimCalendar) (current_time : ℚ)
    (tzais_arg : TzaisArg) (in_israel : Bool) (jc : JewishCalendar) :
    Option Bool :=
  match resolved_tzais s tzais_arg with
  | none => none
  | some tt =>
      match elevation_adjusted_sunset s with
      | none => none
      | some sunset =>
          let jewish_calendar := JewishCalendar.set_in_israel jc in_israel
          some ((current_time ≤ tt
                  && JewishCalendar.is_assur_bemelacha jewish_calendar)
            || (sunset ≤ current_time
                  && JewishCalendar.is_tomorrow_assur_bemelacha jewish_calendar))

end ZmanimCalendar


/-- Modelled from the spec: the `is_kislev_short` flag of the external
`JewishDate` marks the "chaseirim" (deficient) Cheshvan–Kislev variant of
the year, in which Kislev has 29 days instead of 30. -/
def days_in_kislev (kislev_short : Bool) : Nat :=
  if kislev_short then 29 else 30

/-- The `(month, day)` pairs of a year's Chanukah span: Kislev 25 through
the end of Kislev, then the Teves days tagged by
`_teves_significant_day` (1–2, or 1–3 when Kislev is short). -/
def chanukah_dates (kislev_short : Bool) : List (Nat × Nat) :=
  ((List.range' 25 (days_in_kislev kislev_short - 24)).map fun d => (9, d))
    ++ ((if kislev_short then [1, 2, 3] else [1, 2]).map fun d => (10, d))

/-- A concrete `ZmanimCalendar` state used to instantiate theorems with
hypotheses: all sun events present, `use_elevation = False`,
`candle_lighting_offset = 18`. -/
def sample_calendar : ZmanimCalendar :=
  ⟨some 360, some 365, some 1080, some 1085,
    fun q => some (q + 1000), fun q => some (q + 2000), false, 18⟩

/-- `sample_calendar` with `use_elevation = True`. -/
def sample_calendar_elevated : ZmanimCalendar :=
  ⟨some 360, some 365, some 1080, some 1085,
    fun q => some (q + 1000), fun q => some (q + 2000), true, 18⟩

end Zmanim

namespace Zmanim

/-! ## Characterization lemmas for `significant_day` -/

open JewishCalendar SignificantDay

/-- `significant_day()` yields Tzom Gedalyah exactly on Tishrei 3 (not Saturday) or Tishrei 4 (Sunday). -/
theorem sig_tzom_gedalyah_iff (s : JewishCalendar) :
    significant_day s = some tzom_gedalyah ↔
      s.jewish_month = 7 ∧
        ((s.jewish_day = 3 ∧ s.day_of_week ≠ 7) ∨ (s.jewish_day = 4 ∧ s.day_of_week = 1)) := by
  obtain ⟨m, d, w, isr, umh, ks, ly⟩ := s
  cases isr <;> cases umh <;> cases ks <;> cases ly <;>
    · simp only [significant_day, nissan_significant_day, iyar_significant_day,
        sivan_significant_day, tammuz_significant_day, av_significant_day,
        elul_significant_day, tishrei_significant_day, cheshvan_significant_day,
        kislev_significant_day, teves_significant_day, shevat_significant_day,
        adar_significant_day, adar_ii_significant_day, purim_significant_day,
        ite_eq_iff, List.mem_cons, List.not_mem_nil, Option.some.injEq,
        reduceCtorEq, or_false, false_or, and_false, false_and, and_true,
        true_and, not_or, Bool.true_eq_false, Bool.false_eq_true]
      by_cases hm7 : m = 7 <;> (try simp_all) <;> (try omega)

/-- `significant_day()` yields Seventeen of Tammuz exactly on Tammuz 17 (not Saturday) or Tammuz 18 (Sunday). -/
theorem sig_seventeen_tammuz_iff (s : JewishCalendar) :
    significant_day s = some seventeen_of_tammuz ↔
      s.jewish_month = 4 ∧
        ((s.jewish_day = 17 ∧ s.day_of_week ≠ 7) ∨ (s.jewish_day = 18 ∧ s.day_of_week = 1)) := by
  obtain ⟨m, d, w, isr, umh, ks, ly⟩ := s
  cases isr <;> cases umh <;> cases ks <;> cases ly <;>
    · simp only [significant_day, nissan_significant_day, iyar_significant_day,
        sivan_significant_day, tammuz_significant_day, av_significant_day,
        elul_significant_day, tishrei_significant_day, cheshvan_significant_day,
        kislev_significant_day, teves_significant_day, shevat_significant_day,
        adar_significant_day, adar_ii_significant_day, purim_significant_day,
        ite_eq_iff, List.mem_cons, List.not_mem_nil, Option.some.injEq,
        reduceCtorEq, or_false, false_or, and_false, false_and, and_true,
        true_and, not_or, Bool.true_eq_false, Bool.false_eq_true]
      by_cases hm4 : m = 4 <;> (try simp_all) <;> (try omega)

/-- `significant_day()` yields Tisha B'Av exactly on Av 9 (not Saturday) or Av 10 (Sunday). -/
theorem sig_tisha_beav_iff (s : JewishCalendar) :
    significant_day s = some tisha_beav ↔
      s.jewish_month = 5 ∧
        ((s.jewish_day = 9 ∧ s.day_of_week ≠ 7) ∨ (s.jewish_day = 10 ∧ s.day_of_week = 1)) := by
  obtain ⟨m, d, w, isr, umh, ks, ly⟩ := s
  cases isr <;> cases umh <;> cases ks <;> cases ly <;>
    · simp only [significant_day, nissan_significant_day, iyar_significant_day,
        sivan_significant_day, tammuz_significant_day, av_significant_day,
        elul_significant_day, tishrei_significant_day, cheshvan_significant_day,
        kislev_significant_day, teves_significant_day, shevat_significant_day,
        adar_significant_day, adar_ii_significant_day, purim_significant_day,
        ite_eq_iff, List.mem_cons, List.not_mem_nil, Option.some.injEq,
        reduceCtorEq, or_false, false_or, and_false, false_and, and_true,
        true_and, not_or, Bool.true_eq_false, Bool.false_eq_true]
      by_cases hm5 : m = 5 <;> (try simp_all) <;> (try omega)

/-- `significant_day()` yields Taanis Esther exactly in Adar of a non-leap year or in Adar II, on day 13 (not Saturday) or day 11 (Thursday). -/
theorem sig_taanis_esther_iff (s : JewishCalendar) :
    significant_day s = some taanis_esther ↔
      ((s.jewish_month = 12 ∧ s.leap_year = false) ∨ s.jewish_month = 13) ∧
        ((s.jewish_day = 13 ∧ s.day_of_week ≠ 7) ∨ (s.jewish_day = 11 ∧ s.day_of_week = 5)) := by
  obtain ⟨m, d, w, isr, umh, ks, ly⟩ := s
  cases isr <;> cases umh <;> cases ks <;> cases ly <;>
    · simp only [significant_day, nissan_significant_day, iyar_significant_day,
        sivan_significant_day, tammuz_significant_day, av_significant_day,
        elul_significant_day, tishrei_significant_day, cheshvan_significant_day,
        kislev_significant_day, teves_significant_day, shevat_significant_day,
        adar_significant_day, adar_ii_significant_day, purim_significant_day,
        ite_eq_iff, List.mem_cons, List.not_mem_nil, Option.some.injEq,
        reduceCtorEq, or_false, false_or, and_false, false_and, and_true,
        true_and, not_or, Bool.true_eq_false, Bool.false_eq_true]
      by_cases hm12 : m = 12 <;> by_cases hm13 : m = 13 <;> (try simp_all) <;> (try omega)

/-- `significant_day()` yields the pesach tag exactly on Nissan 15 and 21, plus Nissan 16 and 22 outside Israel. -/
theorem sig_pesach_iff (s : JewishCalendar) :
    significant_day s = some pesach ↔
      s.jewish_month = 1 ∧
        (s.jewish_day = 15 ∨ s.jewish_day = 21
          ∨ (s.in_israel = false ∧ (s.jewish_day = 16 ∨ s.jewish_day = 22))) := by
  obtain ⟨m, d, w, isr, umh, ks, ly⟩ := s
  cases isr <;> cases umh <;> cases ks <;> cases ly <;>
    · simp only [significant_day, nissan_significant_day, iyar_significant_day,
        sivan_significant_day, tammuz_significant_day, av_significant_day,
        elul_significant_day, tishrei_significant_day, cheshvan_significant_day,
        kislev_significant_day, teves_significant_day, shevat_significant_day,
        adar_significant_day, adar_ii_significant_day, purim_significant_day,
        ite_eq_iff, List.mem_cons, List.not_mem_nil, Option.some.injEq,
        reduceCtorEq, or_false, false_or, and_false, false_and, and_true,
        true_and, not_or, Bool.true_eq_false, Bool.false_eq_true]
      by_cases hm1 : m = 1 <;> (try simp_all) <;> (try omega)

/-- `significant_day()` yields the shavuos tag exactly on Sivan 6, plus Sivan 7 outside Israel. -/
theorem sig_shavuos_iff (s : JewishCalendar) :
    significant_day s = some shavuos ↔
      s.jewish_month = 3 ∧
        (s.jewish_day = 6 ∨ (s.in_israel = false ∧ s.jewish_day = 7)) := by
  obtain ⟨m, d, w, isr, umh, ks, ly⟩ := s
  cases isr <;> cases umh <;> cases ks <;> cases ly <;>
    · simp only [significant_day, nissan_significant_day, iyar_significant_day,
        sivan_significant_day, tammuz_significant_day, av_significant_day,
        elul_significant_day, tishrei_significant_day, cheshvan_significant_day,
        kislev_significant_day, teves_significant_day, shevat_significant_day,
        adar_significant_day, adar_ii_significant_day, purim_significant_day,
        ite_eq_iff, List.mem_cons, List.not_mem_nil, Option.some.injEq,
        reduceCtorEq, or_false, false_or, and_false, false_and, and_true,
        true_and, not_or, Bool.true_eq_false, Bool.false_eq_true]
      by_cases hm3 : m = 3 <;> (try simp_all) <;> (try omega)

/-- `significant_day()` yields the simchas_torah tag exactly on Tishrei 23 outside Israel. -/
theorem sig_simchas_torah_iff (s : JewishCalendar) :
    significant_day s = some simchas_torah ↔
      s.jewish_month = 7 ∧ s.jewish_day = 23 ∧ s.in_israel = false := by
  obtain ⟨m, d, w, isr, umh, ks, ly⟩ := s
  cases isr <;> cases umh <;> cases ks <;> cases ly <;>
    · simp only [significant_day, nissan_significant_day, iyar_significant_day,
        sivan_significant_day, tammuz_significant_day, av_significant_day,
        elul_significant_day, tishrei_significant_day, cheshvan_significant_day,
        kislev_significant_day, teves_significant_day, shevat_significant_day,
        adar_significant_day, adar_ii_significant_day, purim_significant_day,
        ite_eq_iff, List.mem_cons, List.not_mem_nil, Option.some.injEq,
        reduceCtorEq, or_false, false_or, and_false, false_and, and_true,
        true_and, not_or, Bool.true_eq_false, Bool.false_eq_true]
      by_cases hm7 : m = 7 <;> (try simp_all) <;> (try omega)

/-- `significant_day()` yields the chanukah tag exactly on Kislev 25 and up, and on Teves 1-2 (1-3 when Kislev is short). -/
theorem sig_chanukah_iff (s : JewishCalendar) :
    significant_day s = some chanukah ↔
      (s.jewish_month = 9 ∧ 25 ≤ s.jewish_day)
        ∨ (s.jewish_month = 10 ∧
            (s.jewish_day = 1 ∨ s.jewish_day = 2
              ∨ (s.kislev_short = true ∧ s.jewish_day = 3))) := by
  obtain ⟨m, d, w, isr, umh, ks, ly⟩ := s
  cases isr <;> cases umh <;> cases ks <;> cases ly <;>
    · simp only [significant_day, nissan_significant_day, iyar_significant_day,
        sivan_significant_day, tammuz_significant_day, av_significant_day,
        elul_significant_day, tishrei_significant_day, cheshvan_significant_day,
        kislev_significant_day, teves_significant_day, shevat_significant_day,
        adar_significant_day, adar_ii_significant_day, purim_significant_day,
        ite_eq_iff, List.mem_cons, List.not_mem_nil, Option.some.injEq,
        reduceCtorEq, or_false, false_or, and_false, false_and, and_true,
        true_and, not_or, Bool.true_eq_false, Bool.false_eq_true]
      by_cases hm9 : m = 9 <;> by_cases hm10 : m = 10 <;> (try simp_all) <;> (try omega)

end Zmanim

namespace Zmanim

/-! ## Claim theorems -/

open JewishCalendar SignificantDay ZmanimCalendar

/-- C1: Fast-day deferral in `significant_day()`: for Tzom Gedalyah
(month 7), Seventeen of Tammuz (month 4) and Tisha B'Av (month 5) the fast
tag is returned on the fixed day (3, 17, 9) exactly when `day_of_week ≠ 7`
— in particular never when it is 7 — and on the following day (4, 18, 10)
exactly when that day's `day_of_week = 1`; Taanis Esther (Adar in a
non-leap year, Adar II otherwise) is tagged on day 13 exactly when
`day_of_week ≠ 7` and on day 11 exactly when `day_of_week = 5`. -/
theorem C1_fast_day_deferral (s : JewishCalendar) :
    (significant_day s = some tzom_gedalyah ↔
      s.jewish_month = 7 ∧
        ((s.jewish_day = 3 ∧ s.day_of_week ≠ 7)
          ∨ (s.jewish_day = 4 ∧ s.day_of_week = 1)))
    ∧ (significant_day s = some seventeen_of_tammuz ↔
      s.jewish_month = 4 ∧
        ((s.jewish_day = 17 ∧ s.day_of_week ≠ 7)
          ∨ (s.jewish_day = 18 ∧ s.day_of_week = 1)))
    ∧ (significant_day s = some tisha_beav ↔
      s.jewish_month = 5 ∧
        ((s.jewish_day = 9 ∧ s.day_of_week ≠ 7)
          ∨ (s.jewish_day = 10 ∧ s.day_of_week = 1)))
    ∧ (significant_day s = some taanis_esther ↔
      ((s.jewish_month = 12 ∧ s.leap_year = false) ∨ s.jewish_month = 13) ∧
        ((s.jewish_day = 13 ∧ s.day_of_week ≠ 7)
          ∨ (s.jewish_day = 11 ∧ s.day_of_week = 5))) :=
  ⟨sig_tzom_gedalyah_iff s, sig_seventeen_tammuz_iff s,
    sig_tisha_beav_iff s, sig_taanis_esther_iff s⟩

/-- C2: Two-day Yom Tov locale rule: the pesach tag is produced exactly on
Nissan 15 and 21, plus Nissan 16 and 22 when `in_israel = False`; the
shavuos tag exactly on Sivan 6, plus Sivan 7 when `in_israel = False`; the
simchas_torah tag exactly on Tishrei 23 when `in_israel = False`; and with
`in_israel = True`, Sivan 7 and Tishrei 23 return no tag at all. -/
theorem C2_two_day_yom_tov (s : JewishCalendar) :
    (significant_day s = some pesach ↔
      s.jewish_month = 1 ∧
        (s.jewish_day = 15 ∨ s.jewish_day = 21
          ∨ (s.in_israel = false ∧ (s.jewish_day = 16 ∨ s.jewish_day = 22))))
    ∧ (significant_day s = some shavuos ↔
      s.jewish_month = 3 ∧
        (s.jewish_day = 6 ∨ (s.in_israel = false ∧ s.jewish_day = 7)))
    ∧ (significant_day s = some simchas_torah ↔
      s.jewish_month = 7 ∧ s.jewish_day = 23 ∧ s.in_israel = false)
    ∧ (s.jewish_month = 3 → s.jewish_day = 7 → s.in_israel = true →
      significant_day s = none)
    ∧ (s.jewish_month = 7 → s.jewish_day = 23 → s.in_israel = true →
      significant_day s = none) := by
  refine ⟨sig_pesach_iff s, sig_shavuos_iff s, sig_simchas_torah_iff s, ?_, ?_⟩ <;>
    · intro h1 h2 h3
      obtain ⟨m, d, w, isr, umh, ks, ly⟩ := s
      dsimp only at h1 h2 h3
      subst h1; subst h2; subst h3
      simp [significant_day, sivan_significant_day, tishrei_significant_day]

/-- Witness for C2: Sivan 7 and Tishrei 23 in Israel return no tag. -/
theorem C2_two_day_yom_tov_witness :
    significant_day ⟨3, 7, 1, true, false, false, false⟩ = none
    ∧ significant_day ⟨7, 23, 1, true, false, false, false⟩ = none :=
  ⟨(C2_two_day_yom_tov ⟨3, 7, 1, true, false, false, false⟩).2.2.2.1 rfl rfl rfl,
    (C2_two_day_yom_tov ⟨7, 23, 1, true, false, false, false⟩).2.2.2.2 rfl rfl rfl⟩

/-- C3: the chanukah tag is produced exactly on Kislev days ≥ 25 and Teves
1–2 (1–3 when Kislev is short); `day_of_chanukah()` returns
`jewish_day - 24` in Kislev and `jewish_day + 5` (short Kislev) or `+ 6`
(full Kislev) in Teves, is `None` exactly off the Chanukah span, always
lies in 1..8 (for days ≤ 30), and over the year's 8-element Chanukah span
enumerates 1..8 monotonically. -/
theorem C3_chanukah_span (s : JewishCalendar) :
    (significant_day s = some chanukah ↔
      (s.jewish_month = 9 ∧ 25 ≤ s.jewish_day)
        ∨ (s.jewish_month = 10 ∧
            (s.jewish_day = 1 ∨ s.jewish_day = 2
              ∨ (s.kislev_short = true ∧ s.jewish_day = 3))))
    ∧ (day_of_chanukah s = none ↔ significant_day s ≠ some chanukah)
    ∧ (s.jewish_month = 9 → 25 ≤ s.jewish_day →
        day_of_chanukah s = some (s.jewish_day - 24))
    ∧ (s.jewish_month = 10 → significant_day s = some chanukah →
        day_of_chanukah s = some (s.jewish_day + (if s.kislev_short then 5 else 6)))
    ∧ (s.jewish_day ≤ 30 → ∀ n, day_of_chanukah s = some n → 1 ≤ n ∧ n ≤ 8)
    ∧ (chanukah_dates s.kislev_short).length = 8
    ∧ ((chanukah_dates s.kislev_short).map
        (fun p => day_of_chanukah ⟨p.1, p.2, s.day_of_week, s.in_israel,
          s.use_modern_holidays, s.kislev_short, s.leap_year⟩)
        = [some 1, some 2, some 3, some 4, some 5, some 6, some 7, some 8])
    ∧ (∀ a b : Nat, (a, b) ∈ chanukah_dates s.kislev_short ↔
        ((a = 9 ∧ 25 ≤ b ∧ b ≤ days_in_kislev s.kislev_short)
          ∨ (a = 10 ∧ (b = 1 ∨ b = 2 ∨ (s.kislev_short = true ∧ b = 3))))) := by
  refine ⟨sig_chanukah_iff s, ?_, ?_, ?_, ?_, ?_, ?_, ?_⟩
  · unfold day_of_chanukah is_chanukah
    split_ifs <;> simp_all
  · intro hm hd
    have hs : significant_day s = some chanukah :=
      (sig_chanukah_iff s).2 (Or.inl ⟨hm, hd⟩)
    simp [day_of_chanukah, is_chanukah, hs, hm]
  · intro hm hs
    simp [day_of_chanukah, is_chanukah, hs, hm]
  · intro hd n hn
    unfold day_of_chanukah at hn
    split_ifs at hn with hch hk hks <;>
      simp only [Option.some.injEq] at hn
    · have hs : significant_day s = some chanukah := by
        simpa [is_chanukah] using hch
      rcases (sig_chanukah_iff s).1 hs with ⟨hm, hd'⟩ | ⟨hm, hd'⟩
      · omega
      · omega
    · have hs : significant_day s = some chanukah := by
        simpa [is_chanukah] using hch
      rcases (sig_chanukah_iff s).1 hs with ⟨hm, hd'⟩ | ⟨hm, hd'⟩
      · omega
      · rcases hd' with h | h | ⟨hks2, h⟩ <;> omega
    · have hs : significant_day s = some chanukah := by
        simpa [is_chanukah] using hch
      rcases (sig_chanukah_iff s).1 hs with ⟨hm, hd'⟩ | ⟨hm, hd'⟩
      · omega
      · rcases hd' with h | h | ⟨hks2, h⟩
        · omega
        · omega
        · exact absurd hks2 hks
  · cases hks : s.kislev_short <;> rfl
  · obtain ⟨m, d, w, isr, umh, ks, ly⟩ := s
    cases ks <;> rfl
  · intro a b
    cases hks : s.kislev_short <;>
      simp [chanukah_dates, days_in_kislev, List.mem_range'_1] <;> omega

/-- Witness for C3: Kislev 26 is day 2 of Chanukah (and 1 ≤ 2 ≤ 8), and
Teves 2 of a short-Kislev year is day 7. -/
theorem C3_chanukah_span_witness :
    day_of_chanukah ⟨9, 26, 1, false, false, false, false⟩ = some 2
    ∧ (1 ≤ 2 ∧ 2 ≤ 8)
    ∧ day_of_chanukah ⟨10, 2, 1, false, false, true, false⟩ = some 7 := by
  refine ⟨(C3_chanukah_span ⟨9, 26, 1, false, false, false, false⟩).2.2.1 rfl
      (by decide), ?_, ?_⟩
  · exact (C3_chanukah_span ⟨9, 26, 1, false, false, false, false⟩).2.2.2.2.1
      (by decide) 2
      ((C3_chanukah_span ⟨9, 26, 1, false, false, false, false⟩).2.2.1 rfl
        (by decide))
  · have h := (C3_chanukah_span ⟨10, 2, 1, false, false, true, false⟩).2.2.2.1
      rfl ((sig_chanukah_iff ⟨10, 2, 1, false, false, true, false⟩).2
        (Or.inr ⟨rfl, Or.inr (Or.inl rfl)⟩))
    simpa using h

end Zmanim

namespace Zmanim

open JewishCalendar SignificantDay ZmanimCalendar

/-- C4: offset precedence in `tzais()`/`alos()`: whenever `zmanis_offset`
is present and non-zero, the result is the temporal-hour-scaled
`zmanis_offset` applied to the degree-resolved sunset/sunrise — identical
for every value of the `offset` key, which is silently ignored; whenever
`zmanis_offset` is absent or zero, the fixed-minute `offset` is applied
(negated for `alos`). -/
theorem C4_offset_precedence (s : ZmanimCalendar) (dg o1 o2 : Option ℚ)
    (z : ℚ) (hz : z ≠ 0) (o zo : Option ℚ) (hzo : zo.getD 0 = 0) :
    (tzais s ⟨dg, o1, some z⟩ = tzais s ⟨dg, o2, some z⟩)
    ∧ (alos s ⟨dg, o1, some z⟩ = alos s ⟨dg, o2, some z⟩)
    ∧ tzais s ⟨dg, o1, some z⟩ = offset_by_minutes_zmanis s
        (if dg.getD 0 = 0 then elevation_adjusted_sunset s
         else s.sunset_offset_by_degrees (GEOMETRIC_ZENITH + dg.getD 0)) z
    ∧ alos s ⟨dg, o1, some z⟩ = offset_by_minutes_zmanis s
        (if dg.getD 0 = 0 then elevation_adjusted_sunrise s
         else s.sunrise_offset_by_degrees (GEOMETRIC_ZENITH + dg.getD 0)) (-z)
    ∧ tzais s ⟨dg, o, zo⟩ = offset_by_minutes
        (if dg.getD 0 = 0 then elevation_adjusted_sunset s
         else s.sunset_offset_by_degrees (GEOMETRIC_ZENITH + dg.getD 0)) (o.getD 0)
    ∧ alos s ⟨dg, o, zo⟩ = offset_by_minutes
        (if dg.getD 0 = 0 then elevation_adjusted_sunrise s
         else s.sunrise_offset_by_degrees (GEOMETRIC_ZENITH + dg.getD 0))
        (-(o.getD 0)) := by
  refine ⟨?_, ?_, ?_, ?_, ?_, ?_⟩ <;>
    simp [tzais, alos, extract_degrees_offset, hz, hzo]

/-- Witness for C4: with `zmanis_offset = 1`, the values 5 and 99 for
`offset` give the same tzais on a concrete calendar. -/
theorem C4_offset_precedence_witness :
    (1 : ℚ) ≠ 0 ∧ Option.getD (none : Option ℚ) 0 = 0
    ∧ tzais sample_calendar ⟨none, some 5, some 1⟩
        = tzais sample_calendar ⟨none, some 99, some 1⟩ :=
  ⟨by norm_num, rfl,
    (C4_offset_precedence sample_calendar none (some 5) (some 99) 1
      (by norm_num) (some 7) none rfl).1⟩

/-- C5: `is_yom_tov_sheni()` returns `True` iff the date is Tishrei day 2
(regardless of `in_israel`), or `in_israel` is `False` and the date is one
of Tishrei 16, Tishrei 23, Nissan 16, Nissan 22, or Sivan 7; for every
other date it returns `False`. -/
theorem C5_is_yom_tov_sheni_iff (s : JewishCalendar) :
    is_yom_tov_sheni s = true ↔
      (s.jewish_month = 7 ∧ s.jewish_day = 2)
        ∨ (s.in_israel = false ∧
            ((s.jewish_month = 7 ∧ (s.jewish_day = 16 ∨ s.jewish_day = 23))
              ∨ (s.jewish_month = 1 ∧ (s.jewish_day = 16 ∨ s.jewish_day = 22))
              ∨ (s.jewish_month = 3 ∧ s.jewish_day = 7))) := by
  simp [is_yom_tov_sheni, Bool.not_eq_true]

/-- C6: absence propagation in `ZmanimCalendar.is_assur_bemelacha`: the
result is `None` exactly when the resolved tzais (explicit instant,
`tzais(opts)`, or the default `tzais()`) or the elevation-adjusted sunset
is `None`; otherwise it is the boolean
`(current_time ≤ tzais ∧ day prohibited) ∨ (sunset ≤ current_time ∧ next
day prohibited)` on the calendar with `in_israel` overwritten. -/
theorem C6_is_assur_bemelacha_absence (s : ZmanimCalendar) (ct : ℚ)
    (ta : TzaisArg) (ii : Bool) (jc : JewishCalendar) :
    (ZmanimCalendar.is_assur_bemelacha s ct ta ii jc = none ↔
      (resolved_tzais s ta = none ∨ elevation_adjusted_sunset s = none))
    ∧ (∀ tt ss, resolved_tzais s ta = some tt →
        elevation_adjusted_sunset s = some ss →
        ZmanimCalendar.is_assur_bemelacha s ct ta ii jc =
          some ((decide (ct ≤ tt)
              && JewishCalendar.is_assur_bemelacha (set_in_israel jc ii))
            || (decide (ss ≤ ct)
              && JewishCalendar.is_tomorrow_assur_bemelacha (set_in_israel jc ii)))) := by
  unfold ZmanimCalendar.is_assur_bemelacha
  constructor
  · cases h1 : resolved_tzais s ta <;>
      cases h2 : elevation_adjusted_sunset s <;> simp [h1, h2]
  · intro tt ss h1 h2
    simp [h1, h2]

/-- Witness for C6: an explicit tzais instant and an available sunset give
the boolean value on Rosh Hashana (Tishrei 1). -/
theorem C6_is_assur_bemelacha_absence_witness :
    resolved_tzais sample_calendar (TzaisArg.instant 500) = some 500
    ∧ elevation_adjusted_sunset sample_calendar = some 1085
    ∧ ZmanimCalendar.is_assur_bemelacha sample_calendar 0
        (TzaisArg.instant 500) false ⟨7, 1, 3, false, false, false, false⟩
        = some ((decide ((0 : ℚ) ≤ 500)
            && JewishCalendar.is_assur_bemelacha
              (set_in_israel ⟨7, 1, 3, false, false, false, false⟩ false))
          || (decide ((1085 : ℚ) ≤ 0)
            && JewishCalendar.is_tomorrow_assur_bemelacha
              (set_in_israel ⟨7, 1, 3, false, false, false, false⟩ false))) :=
  ⟨rfl, rfl,
    (C6_is_assur_bemelacha_absence sample_calendar 0 (TzaisArg.instant 500)
      false ⟨7, 1, 3, false, false, false, false⟩).2 500 1085 rfl rfl⟩

/-- C7: `alos_72()` is exactly the elevation-adjusted sunrise minus 72
minutes through the fixed-minute-offset path, and `tzais_72()` exactly the
elevation-adjusted sunset plus 72 minutes; each is `None` exactly when the
underlying sunrise/sunset is `None`. -/
theorem C7_alos72_tzais72 (s : ZmanimCalendar) :
    alos_72 s = offset_by_minutes (elevation_adjusted_sunrise s) (-72)
    ∧ tzais_72 s = offset_by_minutes (elevation_adjusted_sunset s) 72
    ∧ alos_72 s = Option.map (fun t => t - 72 * MINUTE_MILLIS)
        (elevation_adjusted_sunrise s)
    ∧ tzais_72 s = Option.map (fun t => t + 72 * MINUTE_MILLIS)
        (elevation_adjusted_sunset s)
    ∧ (alos_72 s = none ↔ elevation_adjusted_sunrise s = none)
    ∧ (tzais_72 s = none ↔ elevation_adjusted_sunset s = none) := by
  refine ⟨?_, ?_, ?_, ?_, ?_, ?_⟩ <;>
    cases h1 : elevation_adjusted_sunrise s <;>
    cases h2 : elevation_adjusted_sunset s <;>
    simp [alos_72, alos, tzais_72, tzais, extract_degrees_offset,
      offset_by_minutes, h1, h2] <;> ring_nf

/-- C8: `candle_lighting()` is the sea-level sunset minus
`candle_lighting_offset` minutes, `None` exactly when the sea-level sunset
is `None`, and depends only on the sea-level sunset and the offset — in
particular it is independent of `use_elevation`. -/
theorem C8_candle_lighting (s : ZmanimCalendar) :
    candle_lighting s = Option.map
      (fun t => t - s.candle_lighting_offset * MINUTE_MILLIS) s.sea_level_sunset
    ∧ (candle_lighting s = none ↔ s.sea_level_sunset = none)
    ∧ (∀ t : ZmanimCalendar, t.sea_level_sunset = s.sea_level_sunset →
        t.candle_lighting_offset = s.candle_lighting_offset →
        candle_lighting t = candle_lighting s) := by
  refine ⟨?_, ?_, ?_⟩
  · cases h : s.sea_level_sunset <;>
      simp [candle_lighting, offset_by_minutes, h] <;> ring_nf
  · cases h : s.sea_level_sunset <;> simp [candle_lighting, offset_by_minutes, h]
  · intro t h1 h2
    simp [candle_lighting, h1, h2]

/-- Witness for C8: flipping `use_elevation` leaves `candle_lighting`
unchanged on a concrete calendar. -/
theorem C8_candle_lighting_witness :
    sample_calendar_elevated.sea_level_sunset = sample_calendar.sea_level_sunset
    ∧ sample_calendar_elevated.candle_lighting_offset
        = sample_calendar.candle_lighting_offset
    ∧ candle_lighting sample_calendar_elevated = candle_lighting sample_calendar :=
  ⟨rfl, rfl, (C8_candle_lighting sample_calendar).2.2 sample_calendar_elevated rfl rfl⟩

/-- C9: the Kiddush Levana boundaries are pure fixed offsets from the
single molad instant: 3 days, 7 days, 15 days, and
`CHALAKIM_PER_MONTH * 10 / 6` seconds respectively. -/
theorem C9_kiddush_levana_offsets (molad_as_datetime chalakim_per_month : ℚ) :
    techilas_zman_kiddush_levana_3_days molad_as_datetime - molad_as_datetime
        = 3 * day_millis
    ∧ techilas_zman_kiddush_levana_7_days molad_as_datetime - molad_as_datetime
        = 7 * day_millis
    ∧ sof_zman_kiddush_levana_15_days molad_as_datetime - molad_as_datetime
        = 15 * day_millis
    ∧ sof_zman_kiddush_levana_between_moldos chalakim_per_month molad_as_datetime
          - molad_as_datetime
        = chalakim_per_month * 10 / 6 * second_millis := by
  refine ⟨?_, ?_, ?_, ?_⟩ <;>
    simp [techilas_zman_kiddush_levana_3_days, techilas_zman_kiddush_levana_7_days,
      sof_zman_kiddush_levana_15_days, sof_zman_kiddush_levana_between_moldos] <;>
    ring

/-- C10: `is_taanis_bechorim()` returns `True` iff the date is Nissan 14
with `day_of_week ≠ 7` or Nissan 12 with `day_of_week = 5`, and its value
depends only on `(jewish_month, jewish_day, day_of_week)` — in particular
it is independent of `in_israel` and `use_modern_holidays`. -/
theorem C10_is_taanis_bechorim_iff (s : JewishCalendar) :
    (is_taanis_bechorim s = true ↔
      (s.jewish_month = 1 ∧ s.jewish_day = 14 ∧ s.day_of_week ≠ 7)
        ∨ (s.jewish_month = 1 ∧ s.jewish_day = 12 ∧ s.day_of_week = 5))
    ∧ ∀ t : JewishCalendar, t.jewish_month = s.jewish_month →
        t.jewish_day = s.jewish_day → t.day_of_week = s.day_of_week →
        is_taanis_bechorim t = is_taanis_bechorim s := by
  constructor
  · simp only [is_taanis_bechorim, decide_eq_true_eq]
    tauto
  · intro t h1 h2 h3
    simp [is_taanis_bechorim, h1, h2, h3]

/-- Witness for C10: Nissan 14 on a Monday, with all other flags flipped. -/
theorem C10_is_taanis_bechorim_witness :
    is_taanis_bechorim ⟨1, 14, 2, true, true, true, true⟩ =
      is_taanis_bechorim ⟨1, 14, 2, false, false, false, false⟩ :=
  (C10_is_taanis_bechorim_iff ⟨1, 14, 2, false, false, false, false⟩).2
    ⟨1, 14, 2, true, true, true, true⟩ rfl rfl rfl

end Zmanim
